import Mathlib

/-!
Verification of the kinematic-simulation core of the Nexus-9 robotic-arm
repository.  The definitions below are a shallow embedding of the
TypeScript source (the `KinematicSimulation` component): 4x4 homogeneous
transforms, the 9-joint forward-kinematics chain, the gravity-moment /
bending-stress estimator, the spring-damper joint integrator, and the
bounded trajectory buffer.  JavaScript numbers are modelled as real
numbers; the one place where IEEE division by zero matters (the
safety-factor division) is modelled explicitly by `jsDiv`.
-/

namespace Nexus

open Real

/-- 3-component vector, as the source's `Vector3 = {x, y, z}`. -/
structure Vector3 where
  x : ℝ
  y : ℝ
  z : ℝ

/-- 4x4 homogeneous transform, as the source's `Matrix4x4` (row-major
`number[][]`); field `mRC` is row `R`, column `C`. -/
structure Matrix4x4 where
  m00 : ℝ
  m01 : ℝ
  m02 : ℝ
  m03 : ℝ
  m10 : ℝ
  m11 : ℝ
  m12 : ℝ
  m13 : ℝ
  m20 : ℝ
  m21 : ℝ
  m22 : ℝ
  m23 : ℝ
  m30 : ℝ
  m31 : ℝ
  m32 : ℝ
  m33 : ℝ

/-- A frame extracted from a transform, as the source's `FrameData`. -/
structure FrameData where
  id : ℕ
  pos : Vector3
  xAxis : Vector3
  yAxis : Vector3
  zAxis : Vector3
  label : String

/-- Source `identity()`. -/
def identityM : Matrix4x4 :=
  ⟨1, 0, 0, 0,
   0, 1, 0, 0,
   0, 0, 1, 0,
   0, 0, 0, 1⟩

/-- Source `multiplyMatrices(m1, m2)`: the triple loop
`result[r][c] += m1[r][k] * m2[k][c]`, unrolled entrywise. -/
def multiplyMatrices (a b : Matrix4x4) : Matrix4x4 :=
  ⟨a.m00 * b.m00 + a.m01 * b.m10 + a.m02 * b.m20 + a.m03 * b.m30,
   a.m00 * b.m01 + a.m01 * b.m11 + a.m02 * b.m21 + a.m03 * b.m31,
   a.m00 * b.m02 + a.m01 * b.m12 + a.m02 * b.m22 + a.m03 * b.m32,
   a.m00 * b.m03 + a.m01 * b.m13 + a.m02 * b.m23 + a.m03 * b.m33,
   a.m10 * b.m00 + a.m11 * b.m10 + a.m12 * b.m20 + a.m13 * b.m30,
   a.m10 * b.m01 + a.m11 * b.m11 + a.m12 * b.m21 + a.m13 * b.m31,
   a.m10 * b.m02 + a.m11 * b.m12 + a.m12 * b.m22 + a.m13 * b.m32,
   a.m10 * b.m03 + a.m11 * b.m13 + a.m12 * b.m23 + a.m13 * b.m33,
   a.m20 * b.m00 + a.m21 * b.m10 + a.m22 * b.m20 + a.m23 * b.m30,
   a.m20 * b.m01 + a.m21 * b.m11 + a.m22 * b.m21 + a.m23 * b.m31,
   a.m20 * b.m02 + a.m21 * b.m12 + a.m22 * b.m22 + a.m23 * b.m32,
   a.m20 * b.m03 + a.m21 * b.m13 + a.m22 * b.m23 + a.m23 * b.m33,
   a.m30 * b.m00 + a.m31 * b.m10 + a.m32 * b.m20 + a.m33 * b.m30,
   a.m30 * b.m01 + a.m31 * b.m11 + a.m32 * b.m21 + a.m33 * b.m31,
   a.m30 * b.m02 + a.m31 * b.m12 + a.m32 * b.m22 + a.m33 * b.m32,
   a.m30 * b.m03 + a.m31 * b.m13 + a.m32 * b.m23 + a.m33 * b.m33⟩

/-- Source `rotateX(theta)`. -/
noncomputable def rotateX (theta : ℝ) : Matrix4x4 :=
  ⟨1, 0, 0, 0,
   0, Real.cos theta, -Real.sin theta, 0,
   0, Real.sin theta, Real.cos theta, 0,
   0, 0, 0, 1⟩

/-- Source `rotateY(theta)`. -/
noncomputable def rotateY (theta : ℝ) : Matrix4x4 :=
  ⟨Real.cos theta, 0, Real.sin theta, 0,
   0, 1, 0, 0,
   -Real.sin theta, 0, Real.cos theta, 0,
   0, 0, 0, 1⟩

/-- Source `rotateZ(theta)`. -/
noncomputable def rotateZ (theta : ℝ) : Matrix4x4 :=
  ⟨Real.cos theta, -Real.sin theta, 0, 0,
   Real.sin theta, Real.cos theta, 0, 0,
   0, 0, 1, 0,
   0, 0, 0, 1⟩

/-- Source `translate(x, y, z)`. -/
def translate (x y z : ℝ) : Matrix4x4 :=
  ⟨1, 0, 0, x,
   0, 1, 0, y,
   0, 0, 1, z,
   0, 0, 0, 1⟩

/-- Source `extractFrame(m, id, label)`. -/
def extractFrame (m : Matrix4x4) (id : ℕ) (label : String) : FrameData :=
  { id := id
    label := label
    pos := ⟨m.m03, m.m13, m.m23⟩
    xAxis := ⟨m.m00, m.m10, m.m20⟩
    yAxis := ⟨m.m01, m.m11, m.m21⟩
    zAxis := ⟨m.m02, m.m12, m.m22⟩ }

/-- Source `crossProduct(a, b)`. -/
def crossProduct (a b : Vector3) : Vector3 :=
  ⟨a.y * b.z - a.z * b.y,
   a.z * b.x - a.x * b.z,
   a.x * b.y - a.y * b.x⟩

/-- Source `magnitude(v)`. -/
noncomputable def magnitude (v : Vector3) : ℝ :=
  Real.sqrt (v.x * v.x + v.y * v.y + v.z * v.z)

/-- Source `lerpVector(v1, v2, t)`. -/
def lerpVector (v1 v2 : Vector3) (t : ℝ) : Vector3 :=
  ⟨v1.x + (v2.x - v1.x) * t,
   v1.y + (v2.y - v1.y) * t,
   v1.z + (v2.z - v1.z) * t⟩

/-- Source constant `AL6061_YIELD_STRENGTH = 276` (MPa). -/
def AL6061_YIELD_STRENGTH : ℝ := 276

/-- Source constant `GRAVITY = 9.81`. -/
def GRAVITY : ℝ := 9.81

/-- Source `LinkProps` (the `name` string is presentation only and elided). -/
structure LinkProps where
  length : ℝ
  mass : ℝ
  od : ℝ
  thickness : ℝ
  cogRatio : ℝ

/-- Source `LINKS.UPPER`. -/
def LINKS_UPPER : LinkProps := ⟨0.45, 1.5, 0.050, 0.0015, 0.5⟩

/-- Source `LINKS.FOREARM`. -/
def LINKS_FOREARM : LinkProps := ⟨0.30, 1.5, 0.040, 0.0010, 0.5⟩

/-- Source `LINKS.HAND`. -/
def LINKS_HAND : LinkProps := ⟨0.15, 1.0, 0.040, 0.0010, 0.5⟩

/-- Source `calculateInertia(od, thickness)`: area moment of inertia of a
hollow circle, `pi * (od^4 - id^4) / 64` with `id = od - 2 * thickness`. -/
noncomputable def calculateInertia (od thickness : ℝ) : ℝ :=
  Real.pi * (od ^ 4 - (od - 2 * thickness) ^ 4) / 64

/-- The numeric content of source `getStressColor`: the clamped
stress-to-yield ratio and the resulting hue.  (The `hsl(...)` string
wrapper around the hue is presentation and is elided.) -/
noncomputable def getStressColorHue (stressMPa : ℝ) : ℝ :=
  max 0 (240 - min (stressMPa / AL6061_YIELD_STRENGTH) 1.2 * 240)

/-- A JavaScript number that may be an IEEE-754 special value.  Used to
model the outcome of a JS division whose denominator may be zero. -/
inductive JsNum where
  | num (x : ℝ)
  | posInf
  | negInf
  | nan

/-- JS division `a / b` where `b` is a non-negative float (the only shape
occurring here: the denominator is a stress magnitude): `x / 0` is
`Infinity` for `x > 0`, `-Infinity` for `x < 0`, and `NaN` for `0 / 0`. -/
noncomputable def jsDiv (a b : ℝ) : JsNum :=
  if b = 0 then
    if 0 < a then JsNum.posInf
    else if a < 0 then JsNum.negInf
    else JsNum.nan
  else JsNum.num (a / b)

/-- The nine rotational joint angles, in degrees, in the order of the
source's `joints` array indices 0..8 (`joints[9]` is the Gripper, which
plays no role in the kinematic chain). -/
structure JointAngles where
  j1 : ℝ
  j2 : ℝ
  j3 : ℝ
  j4 : ℝ
  j5 : ℝ
  j6 : ℝ
  j7x : ℝ
  j7y : ℝ
  j7z : ℝ

/-- Source `toRad(deg) = deg * Math.PI / 180`. -/
noncomputable def toRad (deg : ℝ) : ℝ := deg * Real.pi / 180

/-- `TGlobal` after `rotateZ(toRad(joints[0].angle))`. -/
noncomputable def TafterJ1 (a : JointAngles) : Matrix4x4 :=
  multiplyMatrices identityM (rotateZ (toRad a.j1))

/-- `TGlobal` after `rotateY(toRad(joints[1].angle))`. -/
noncomputable def TafterJ2 (a : JointAngles) : Matrix4x4 :=
  multiplyMatrices (TafterJ1 a) (rotateY (toRad a.j2))

/-- `TGlobal` after `rotateX(toRad(joints[2].angle))`. -/
noncomputable def TafterJ3 (a : JointAngles) : Matrix4x4 :=
  multiplyMatrices (TafterJ2 a) (rotateX (toRad a.j3))

/-- `TGlobal` after `translate(LINKS.UPPER.length, 0, 0)`. -/
noncomputable def TafterUpper (a : JointAngles) : Matrix4x4 :=
  multiplyMatrices (TafterJ3 a) (translate LINKS_UPPER.length 0 0)

/-- `TGlobal` after `rotateZ(toRad(joints[3].angle))`. -/
noncomputable def TafterJ4 (a : JointAngles) : Matrix4x4 :=
  multiplyMatrices (TafterUpper a) (rotateZ (toRad a.j4))

/-- `TGlobal` after `rotateY(toRad(joints[4].angle))`. -/
noncomputable def TafterJ5 (a : JointAngles) : Matrix4x4 :=
  multiplyMatrices (TafterJ4 a) (rotateY (toRad a.j5))

/-- `TGlobal` after `rotateX(toRad(joints[5].angle))`. -/
noncomputable def TafterJ6 (a : JointAngles) : Matrix4x4 :=
  multiplyMatrices (TafterJ5 a) (rotateX (toRad a.j6))

/-- `TGlobal` after `translate(LINKS.FOREARM.length, 0, 0)`. -/
noncomputable def TafterFore (a : JointAngles) : Matrix4x4 :=
  multiplyMatrices (TafterJ6 a) (translate LINKS_FOREARM.length 0 0)

/-- `TGlobal` after `rotateX(toRad(joints[6].angle))`. -/
noncomputable def TafterJ7X (a : JointAngles) : Matrix4x4 :=
  multiplyMatrices (TafterFore a) (rotateX (toRad a.j7x))

/-- `TGlobal` after `rotateY(toRad(joints[7].angle))`. -/
noncomputable def TafterJ7Y (a : JointAngles) : Matrix4x4 :=
  multiplyMatrices (TafterJ7X a) (rotateY (toRad a.j7y))

/-- `TGlobal` after `rotateZ(toRad(joints[8].angle))`. -/
noncomputable def TafterJ7Z (a : JointAngles) : Matrix4x4 :=
  multiplyMatrices (TafterJ7Y a) (rotateZ (toRad a.j7z))

/-- `TGlobal` after the final `translate(LINKS.HAND.length, 0, 0)`. -/
noncomputable def TendEffector (a : JointAngles) : Matrix4x4 :=
  multiplyMatrices (TafterJ7Z a) (translate LINKS_HAND.length 0 0)

/-- Source `frames[0] = extractFrame(TGlobal, 0, 'Base')`. -/
def frameBase : FrameData := extractFrame identityM 0 "Base"

/-- Source `frameJ1`. -/
noncomputable def frameJ1 (a : JointAngles) : FrameData :=
  extractFrame (TafterJ1 a) 1 "J1 (Sh_Z)"

/-- Source `frameJ2`. -/
noncomputable def frameJ2 (a : JointAngles) : FrameData :=
  extractFrame (TafterJ2 a) 2 "J2 (Sh_Y)"

/-- Source `frameJ3`. -/
noncomputable def frameJ3 (a : JointAngles) : FrameData :=
  extractFrame (TafterJ3 a) 3 "J3 (Sh_X)"

/-- Source `frameJ4`. -/
noncomputable def frameJ4 (a : JointAngles) : FrameData :=
  extractFrame (TafterJ4 a) 4 "J4 (Elb_Z)"

/-- Source `frameJ5`. -/
noncomputable def frameJ5 (a : JointAngles) : FrameData :=
  extractFrame (TafterJ5 a) 5 "J5 (Elb_Y)"

/-- Source `frameJ6`. -/
noncomputable def frameJ6 (a : JointAngles) : FrameData :=
  extractFrame (TafterJ6 a) 6 "J6 (Elb_X)"

/-- Source `frameJ7X`. -/
noncomputable def frameJ7X (a : JointAngles) : FrameData :=
  extractFrame (TafterJ7X a) 7 "J7 (Wr_X)"

/-- Source `frameJ7Y`. -/
noncomputable def frameJ7Y (a : JointAngles) : FrameData :=
  extractFrame (TafterJ7Y a) 8 "J8 (Wr_Y)"

/-- Source `frameJ7Z`. -/
noncomputable def frameJ7Z (a : JointAngles) : FrameData :=
  extractFrame (TafterJ7Z a) 9 "J9 (Wr_Z)"

/-- Source `endEffectorFrame`. -/
noncomputable def endEffectorFrame (a : JointAngles) : FrameData :=
  extractFrame (TendEffector a) 10 "EE"

/-- Source `allFrames`: all significant frames stored for rendering. -/
noncomputable def allFrames (a : JointAngles) : List FrameData :=
  [frameBase,
   frameJ1 a, frameJ2 a, frameJ3 a,
   frameJ4 a, frameJ5 a, frameJ6 a,
   frameJ7X a, frameJ7Y a, frameJ7Z a,
   endEffectorFrame a]

/-- Source `cogUpper = lerpVector(frameJ3.pos, frameJ4.pos, LINKS.UPPER.cogRatio)`. -/
noncomputable def cogUpper (a : JointAngles) : Vector3 :=
  lerpVector (frameJ3 a).pos (frameJ4 a).pos LINKS_UPPER.cogRatio

/-- Source `cogFore = lerpVector(frameJ6.pos, frameJ7X.pos, LINKS.FOREARM.cogRatio)`. -/
noncomputable def cogFore (a : JointAngles) : Vector3 :=
  lerpVector (frameJ6 a).pos (frameJ7X a).pos LINKS_FOREARM.cogRatio

/-- Source `cogHand = lerpVector(frameJ7Z.pos, endEffector, LINKS.HAND.cogRatio)`. -/
noncomputable def cogHand (a : JointAngles) : Vector3 :=
  lerpVector (frameJ7Z a).pos (endEffectorFrame a).pos LINKS_HAND.cogRatio

/-- One entry of the source's `loadSet`: `{mass, pos}`. -/
structure Load where
  mass : ℝ
  pos : Vector3

/-- The accumulator loop inside source `calculateMoment`: starting from
`totalM = {0,0,0}`, for each load compute `r = pos - pivot`,
`F = (0, 0, -mass * GRAVITY)` and add `crossProduct(r, F)` componentwise. -/
def momentSum (pivot : Vector3) (loads : List Load) : Vector3 :=
  loads.foldl
    (fun totalM L =>
      let r : Vector3 := ⟨L.pos.x - pivot.x, L.pos.y - pivot.y, L.pos.z - pivot.z⟩
      let F : Vector3 := ⟨0, 0, -(L.mass * GRAVITY)⟩
      let M := crossProduct r F
      ⟨totalM.x + M.x, totalM.y + M.y, totalM.z + M.z⟩)
    ⟨0, 0, 0⟩

/-- Source `calculateMoment(pivot, loads)`: magnitude of the summed moment. -/
noncomputable def calculateMoment (pivot : Vector3) (loads : List Load) : ℝ :=
  magnitude (momentSum pivot loads)

/-- Source `loadSet`: the three link centers of gravity plus the payload
at the end effector. -/
noncomputable def loadSet (a : JointAngles) (loadMass : ℝ) : List Load :=
  [⟨LINKS_UPPER.mass, cogUpper a⟩,
   ⟨LINKS_FOREARM.mass, cogFore a⟩,
   ⟨LINKS_HAND.mass, cogHand a⟩,
   ⟨loadMass, (endEffectorFrame a).pos⟩]

/-- Source `torqueMap['j2'] = calculateMoment(frameJ2.pos, loadSet)`. -/
noncomputable def torqueJ2 (a : JointAngles) (loadMass : ℝ) : ℝ :=
  calculateMoment (frameJ2 a).pos (loadSet a loadMass)

/-- Source `torqueMap['j5'] = calculateMoment(frameJ5.pos, loadSet.slice(1))`. -/
noncomputable def torqueJ5 (a : JointAngles) (loadMass : ℝ) : ℝ :=
  calculateMoment (frameJ5 a).pos ((loadSet a loadMass).drop 1)

/-- Source `torqueMap['j7_y'] = calculateMoment(frameJ7Y.pos, loadSet.slice(2))`. -/
noncomputable def torqueJ7Y (a : JointAngles) (loadMass : ℝ) : ℝ :=
  calculateMoment (frameJ7Y a).pos ((loadSet a loadMass).drop 2)

/-- The effect of the fill loop
`joints.forEach(j => { if(!torqueMap[j.id]) torqueMap[j.id] = 0.1; })`
on an entry already present in the map: a JS number is falsy exactly
when it is `0` (or `NaN`, which cannot arise from a magnitude), so a
computed torque of exactly `0` is replaced by the `0.1` placeholder. -/
noncomputable def fillTorque (t : ℝ) : ℝ :=
  if t = 0 then 0.1 else t

/-- The ten joint ids of the source `joints` array. -/
inductive JointId where
  | j1
  | j2
  | j3
  | j4
  | j5
  | j6
  | j7x
  | j7y
  | j7z
  | j9
deriving DecidableEq

/-- The published `torqueMap` after the fill loop (the value passed to
`setJointTorques` and later serialized by `exportData`): the three pivot
joints carry their computed moment (with a falsy `0` replaced by `0.1`),
every other joint gets the constant placeholder `0.1`. -/
noncomputable def jointTorques (a : JointAngles) (loadMass : ℝ) : JointId → ℝ
  | JointId.j2 => fillTorque (torqueJ2 a loadMass)
  | JointId.j5 => fillTorque (torqueJ5 a loadMass)
  | JointId.j7y => fillTorque (torqueJ7Y a loadMass)
  | _ => 0.1

/-- Source `calcStress(torque, link)`: `((torque * c) / I) / 1e6` with
`c = link.od / 2` and `I = calculateInertia(link.od, link.thickness)`. -/
noncomputable def calcStress (torque : ℝ) (link : LinkProps) : ℝ :=
  ((torque * (link.od / 2)) / calculateInertia link.od link.thickness) / 1e6

/-- Source `stressS = calcStress(torqueMap['j2'], LINKS.UPPER)` — note the
torque is read from the map after the fill loop has run. -/
noncomputable def stressS (a : JointAngles) (loadMass : ℝ) : ℝ :=
  calcStress (jointTorques a loadMass JointId.j2) LINKS_UPPER

/-- Source `stressE = calcStress(torqueMap['j5'], LINKS.FOREARM)`. -/
noncomputable def stressE (a : JointAngles) (loadMass : ℝ) : ℝ :=
  calcStress (jointTorques a loadMass JointId.j5) LINKS_FOREARM

/-- Source `stressW = calcStress(torqueMap['j7_y'], LINKS.HAND)`. -/
noncomputable def stressW (a : JointAngles) (loadMass : ℝ) : ℝ :=
  calcStress (jointTorques a loadMass JointId.j7y) LINKS_HAND

/-- Source `StressResult` (the `color` string is represented by the
numeric hue computed by `getStressColorHue`; the safety factor is the JS
division result, which may in principle be a special value). -/
structure StressResult where
  location : String
  torqueStatic : ℝ
  torqueDynamic : ℝ
  stressMPa : ℝ
  safetyFactor : JsNum
  colorHue : ℝ

/-- First entry passed to `setStressResults`. -/
noncomputable def shoulderResult (a : JointAngles) (loadMass : ℝ) : StressResult :=
  { location := "Shoulder"
    torqueStatic := jointTorques a loadMass JointId.j2
    torqueDynamic := 0
    stressMPa := stressS a loadMass
    safetyFactor := jsDiv AL6061_YIELD_STRENGTH (stressS a loadMass)
    colorHue := getStressColorHue (stressS a loadMass) }

/-- Second entry passed to `setStressResults`. -/
noncomputable def elbowResult (a : JointAngles) (loadMass : ℝ) : StressResult :=
  { location := "Elbow"
    torqueStatic := jointTorques a loadMass JointId.j5
    torqueDynamic := 0
    stressMPa := stressE a loadMass
    safetyFactor := jsDiv AL6061_YIELD_STRENGTH (stressE a loadMass)
    colorHue := getStressColorHue (stressE a loadMass) }

/-- Third entry passed to `setStressResults`. -/
noncomputable def wristResult (a : JointAngles) (loadMass : ℝ) : StressResult :=
  { location := "Wrist"
    torqueStatic := jointTorques a loadMass JointId.j7y
    torqueDynamic := 0
    stressMPa := stressW a loadMass
    safetyFactor := jsDiv AL6061_YIELD_STRENGTH (stressW a loadMass)
    colorHue := getStressColorHue (stressW a loadMass) }

/-- The list passed to `setStressResults`. -/
noncomputable def stressResults (a : JointAngles) (loadMass : ℝ) : List StressResult :=
  [shoulderResult a loadMass, elbowResult a loadMass, wristResult a loadMass]

/-- JS `xs.slice(-n)` for an array: the last `min(n, xs.length)` elements. -/
def sliceLast (n : ℕ) (xs : List Vector3) : List Vector3 :=
  xs.drop (xs.length - n)

/-- Source `setTrajectory` updater: skip the new point when it is within
`0.005` of the last stored point in both `x` and `y`; otherwise append it
and keep only the last 150 entries (`[...prev, endEffector].slice(-150)`). -/
noncomputable def updateTrajectory (prev : List Vector3) (endEffector : Vector3) :
    List Vector3 :=
  match prev.getLast? with
  | some last =>
      if |last.x - endEffector.x| < 0.005 ∧ |last.y - endEffector.y| < 0.005 then prev
      else sliceLast 150 (prev ++ [endEffector])
  | none => sliceLast 150 (prev ++ [endEffector])

/-- Source joint groups. -/
inductive JointGroup where
  | Shoulder
  | Elbow
  | Wrist
  | Gripper
deriving DecidableEq

/-- Source `JointState` (the `id`, `name` and `axis` fields play no role
in the integrator and are elided). -/
structure JointState where
  angle : ℝ
  targetAngle : ℝ
  velocity : ℝ
  min : ℝ
  max : ℝ
  group : JointGroup

/-- One joint's update inside the source `animate` callback: the
animation-override target (when playing and not the Gripper), then the
spring-damper acceleration and explicit-Euler integration.  `i` is the
joint's index in the array, `timeCur` the already-advanced `timeRef.current`. -/
noncomputable def stepJoint (playing : Bool) (timeCur dt : ℝ) (i : ℕ)
    (j : JointState) : JointState :=
  let target :=
    if playing = true ∧ j.group ≠ JointGroup.Gripper then
      (j.max + j.min) / 2 +
        Real.sin (timeCur * 1.5 + (i : ℝ) * 0.5) * ((j.max - j.min) * 0.15)
    else j.targetAngle
  let inertia : ℝ :=
    match j.group with
    | JointGroup.Shoulder => 2.5
    | JointGroup.Elbow => 1.5
    | JointGroup.Wrist => 0.5
    | JointGroup.Gripper => 1.0
  let acceleration := (120 * (target - j.angle) - 15 * j.velocity) / inertia
  let newVelocity := j.velocity + acceleration * dt
  let newAngle := j.angle + newVelocity * dt
  { j with angle := newAngle, velocity := newVelocity, targetAngle := target }

/-- One invocation of the source `animate(time)` callback:
`dt = min((time - lastTime) / 1000, 0.1)`, `timeRef` advances by `dt`
while playing, and every joint is stepped.  Returns the new `timeRef`
value and the new joint array. -/
noncomputable def animateTick (playing : Bool) (time0 timeMs lastTimeMs : ℝ)
    (joints : List JointState) : ℝ × List JointState :=
  let dt := min ((timeMs - lastTimeMs) / 1000) 0.1
  let t := if playing then time0 + dt else time0
  (t, joints.mapIdx fun i j => stepJoint playing t dt i j)

/-- All nine rotational joints at angle 0 (the configuration of claim C4). -/
def zeroAngles : JointAngles := ⟨0, 0, 0, 0, 0, 0, 0, 0, 0⟩

/-- A folded configuration: shoulder pitch at 72 degrees and wrist pitch at
108 degrees (all other joints at 0), so the hand doubles back over the
forearm and the payload's moment arm at the elbow opposes the link
self-weight moment. -/
def foldAngles : JointAngles := ⟨0, 72, 0, 0, 0, 0, 0, 108, 0⟩

/-- A concrete joint state (the initial shoulder-yaw joint with a 45-degree
target), used to evaluate the integrator on explicit inputs. -/
def sampleJoint : JointState := ⟨0, 45, 0, -90, 90, JointGroup.Shoulder⟩

/-! ## Helper lemmas -/

lemma extractFrame_label (m : Matrix4x4) (i : ℕ) (l : String) :
    (extractFrame m i l).label = l := rfl

lemma multiplyMatrices_identity_left (m : Matrix4x4) :
    multiplyMatrices identityM m = m := by
  cases m
  simp [multiplyMatrices, identityM]

lemma multiplyMatrices_identity_right (m : Matrix4x4) :
    multiplyMatrices m identityM = m := by
  cases m
  simp [multiplyMatrices, identityM]

lemma toRad_zero : toRad 0 = 0 := by
  simp [toRad]

lemma rotateX_zero : rotateX 0 = identityM := by
  simp [rotateX, identityM]

lemma rotateY_zero : rotateY 0 = identityM := by
  simp [rotateY, identityM]

lemma rotateZ_zero : rotateZ 0 = identityM := by
  simp [rotateZ, identityM]

/-- Post-multiplying by a rotation about Z does not move the origin of the
accumulated transform. -/
lemma mul_rotateZ_m03 (m : Matrix4x4) (t : ℝ) :
    (multiplyMatrices m (rotateZ t)).m03 = m.m03 := by
  simp [multiplyMatrices, rotateZ]

lemma mul_rotateZ_m13 (m : Matrix4x4) (t : ℝ) :
    (multiplyMatrices m (rotateZ t)).m13 = m.m13 := by
  simp [multiplyMatrices, rotateZ]

lemma mul_rotateZ_m23 (m : Matrix4x4) (t : ℝ) :
    (multiplyMatrices m (rotateZ t)).m23 = m.m23 := by
  simp [multiplyMatrices, rotateZ]

lemma magnitude_nonneg (v : Vector3) : 0 ≤ magnitude v :=
  Real.sqrt_nonneg _

/-- Magnitude of a vector with only a y-component. -/
lemma magnitude_y (y : ℝ) : magnitude ⟨0, y, 0⟩ = |y| := by
  unfold magnitude
  rw [show (0 : ℝ) * 0 + y * y + 0 * 0 = y ^ 2 by ring, Real.sqrt_sq_eq_abs]

/-- Magnitude scales by the absolute value of a componentwise factor. -/
lemma magnitude_scale (k : ℝ) (v : Vector3) :
    magnitude ⟨k * v.x, k * v.y, k * v.z⟩ = |k| * magnitude v := by
  unfold magnitude
  rw [show k * v.x * (k * v.x) + k * v.y * (k * v.y) + k * v.z * (k * v.z) =
        k ^ 2 * (v.x * v.x + v.y * v.y + v.z * v.z) by ring,
    Real.sqrt_mul (sq_nonneg k), Real.sqrt_sq_eq_abs]

lemma sliceLast_length_le (n : ℕ) (xs : List Vector3) :
    (sliceLast n xs).length ≤ n ∨ (sliceLast n xs).length = xs.length := by
  simp only [sliceLast, List.length_drop]
  omega

lemma getLast?_replicate (n : ℕ) (hn : n ≠ 0) (a : Vector3) :
    (List.replicate n a).getLast? = some a := by
  cases n with
  | zero => exact absurd rfl hn
  | succ k => rw [List.replicate_succ', List.getLast?_concat]

/-! ## Claim C5 -/

/-- C5: the forward-kinematics engine builds the accumulated transform by
post-multiplying rotations in the order Z, Y, X for the Shoulder triple
(j1, j2, j3) and for the Elbow triple (j4, j5, j6), and X, Y, Z for the
Wrist triple (j7x, j7y, j7z), with a translation of the corresponding link
length along the local X axis after each completed triple (Upper Arm after
the Shoulder, Forearm after the Elbow, Hand after the Wrist). -/
theorem C5_rotation_order (a : JointAngles) :
    TendEffector a =
      multiplyMatrices
        (multiplyMatrices
          (multiplyMatrices
            (multiplyMatrices
              (multiplyMatrices
                (multiplyMatrices
                  (multiplyMatrices
                    (multiplyMatrices
                      (multiplyMatrices
                        (multiplyMatrices
                          (multiplyMatrices
                            (multiplyMatrices identityM (rotateZ (toRad a.j1)))
                            (rotateY (toRad a.j2)))
                          (rotateX (toRad a.j3)))
                        (translate LINKS_UPPER.length 0 0))
                      (rotateZ (toRad a.j4)))
                    (rotateY (toRad a.j5)))
                  (rotateX (toRad a.j6)))
                (translate LINKS_FOREARM.length 0 0))
              (rotateX (toRad a.j7x)))
            (rotateY (toRad a.j7y)))
          (rotateZ (toRad a.j7z)))
        (translate LINKS_HAND.length 0 0) := rfl

/-! ## Claim C6 -/

/-- C6 counterexample: the frame list produced for the all-zero joint
configuration does not have 10 elements (it has 11: Base, nine joint
frames, and the end effector). -/
theorem C6_counterexample : ¬ (allFrames zeroAngles).length = 10 := by
  simp [allFrames]

/-- C6 amended: for every input of nine joint angles the engine outputs an
ordered list of exactly 11 frames, with the Base frame first and the
EndEffector frame last. -/
theorem C6_amended (a : JointAngles) :
    (allFrames a).length = 11 ∧
    (allFrames a).map FrameData.label =
      ["Base", "J1 (Sh_Z)", "J2 (Sh_Y)", "J3 (Sh_X)", "J4 (Elb_Z)",
       "J5 (Elb_Y)", "J6 (Elb_X)", "J7 (Wr_X)", "J8 (Wr_Y)", "J9 (Wr_Z)",
       "EE"] :=
  ⟨rfl, rfl⟩

/-! ## Claim C7 -/

/-- C7: for every configuration and payload, each reported stress equals
`torque * (OD / 2) / I / 1e6` where `I = pi * (OD^4 - ID^4) / 64` and
`ID = OD - 2 * wallThickness`, with the OD and wall thickness of the limb
segment bending at that pivot (Upper Arm at the Shoulder, Forearm at the
Elbow, Hand at the Wrist). -/
theorem C7_stress_formula (a : JointAngles) (m : ℝ) :
    (shoulderResult a m).stressMPa =
      (shoulderResult a m).torqueStatic * (0.050 / 2) /
        (Real.pi * (0.050 ^ 4 - (0.050 - 2 * 0.0015) ^ 4) / 64) / 1e6 ∧
    (elbowResult a m).stressMPa =
      (elbowResult a m).torqueStatic * (0.040 / 2) /
        (Real.pi * (0.040 ^ 4 - (0.040 - 2 * 0.0010) ^ 4) / 64) / 1e6 ∧
    (wristResult a m).stressMPa =
      (wristResult a m).torqueStatic * (0.040 / 2) /
        (Real.pi * (0.040 ^ 4 - (0.040 - 2 * 0.0010) ^ 4) / 64) / 1e6 :=
  ⟨rfl, rfl, rfl⟩

/-! ## Claim C8 -/

/-- C8: the integrator's time step is the wall-clock delta clamped to
0.1 s, so any two ticks whose wall-clock deltas are both at least 0.1 s
(100 ms) produce identical new angles and velocities for every joint of
any joint state, and the same accumulated animation time. -/
theorem C8_dt_clamp (playing : Bool) (t0 time1 last1 time2 last2 : ℝ)
    (joints : List JointState)
    (h1 : 0.1 ≤ (time1 - last1) / 1000) (h2 : 0.1 ≤ (time2 - last2) / 1000) :
    animateTick playing t0 time1 last1 joints =
      animateTick playing t0 time2 last2 joints := by
  unfold animateTick
  rw [min_eq_right h1, min_eq_right h2]

/-- C8 witness: a 0.1 s gap and a 5 s gap yield the same tick result on a
concrete joint. -/
theorem C8_dt_clamp_witness :
    (0.1 : ℝ) ≤ (100 - 0) / 1000 ∧ (0.1 : ℝ) ≤ (5000 - 0) / 1000 ∧
    animateTick false 0 100 0 [sampleJoint] =
      animateTick false 0 5000 0 [sampleJoint] :=
  ⟨by norm_num, by norm_num,
    C8_dt_clamp false 0 100 0 5000 0 [sampleJoint] (by norm_num) (by norm_num)⟩

/-! ## Claim C9 -/

/-- C9: the trajectory buffer never grows beyond 150 points (the update
preserves the bound), and when a new point is appended to a trajectory
already holding 150 points, the oldest point is evicted and the most
recent 150 points, including the new one, are kept in order. -/
theorem C9_trajectory :
    (∀ (prev : List Vector3) (ee : Vector3), prev.length ≤ 150 →
      (updateTrajectory prev ee).length ≤ 150) ∧
    (∀ (prev : List Vector3) (ee : Vector3), prev.length = 150 →
      (∀ last, prev.getLast? = some last →
        ¬(|last.x - ee.x| < 0.005 ∧ |last.y - ee.y| < 0.005)) →
      updateTrajectory prev ee = prev.drop 1 ++ [ee] ∧
        (updateTrajectory prev ee).length = 150) := by
  constructor
  · intro prev ee h
    unfold updateTrajectory
    cases hL : prev.getLast? with
    | none =>
        simp only [sliceLast, List.length_drop]
        omega
    | some last =>
        simp only []
        split_ifs with hc
        · exact h
        · simp only [sliceLast, List.length_drop]
          omega
  · intro prev ee hlen hsep
    have hmain : updateTrajectory prev ee = prev.drop 1 ++ [ee] := by
      unfold updateTrajectory
      cases hL : prev.getLast? with
      | none =>
          rw [List.getLast?_eq_none_iff] at hL
          subst hL
          simp at hlen
      | some last =>
          simp only []
          rw [if_neg (hsep last hL)]
          match prev, hlen with
          | p :: rest, hlen =>
            simp only [sliceLast]
            have hd : (p :: rest ++ [ee]).length - 150 = 1 := by
              simp at hlen ⊢
              omega
            rw [hd]
            simp
    refine ⟨hmain, ?_⟩
    rw [hmain]
    have h1 : 1 ≤ prev.length := by omega
    simp [hlen]

/-- C9 witness: a concrete 150-point trajectory receiving a genuinely new
point evicts exactly the oldest entry. -/
theorem C9_trajectory_witness :
    ((List.replicate 150 (⟨0, 0, 0⟩ : Vector3)).length ≤ 150 ∧
      (updateTrajectory (List.replicate 150 ⟨0, 0, 0⟩) ⟨1, 0, 0⟩).length ≤ 150) ∧
    ((List.replicate 150 (⟨0, 0, 0⟩ : Vector3)).length = 150 ∧
      updateTrajectory (List.replicate 150 ⟨0, 0, 0⟩) ⟨1, 0, 0⟩ =
        (List.replicate 150 (⟨0, 0, 0⟩ : Vector3)).drop 1 ++ [⟨1, 0, 0⟩] ∧
      (updateTrajectory (List.replicate 150 ⟨0, 0, 0⟩) ⟨1, 0, 0⟩).length = 150) :=
  ⟨⟨by simp, C9_trajectory.1 _ _ (by simp)⟩,
   ⟨by simp,
    C9_trajectory.2 (List.replicate 150 ⟨0, 0, 0⟩) ⟨1, 0, 0⟩ (by simp)
      (by
        intro last h
        rw [getLast?_replicate 150 (by norm_num)] at h
        cases h
        norm_num)⟩⟩

/-! ## Claim C10 -/

/-- C10: for every joint other than the three pivots j2, j5 and j7_y, the
torque published in `jointTorques` (the map serialized by the JSON
export) is the constant placeholder 0.1, independent of the joint angles
and of the payload mass. -/
theorem C10_placeholder_torques (a : JointAngles) (m : ℝ) :
    jointTorques a m JointId.j1 = 0.1 ∧ jointTorques a m JointId.j3 = 0.1 ∧
    jointTorques a m JointId.j4 = 0.1 ∧ jointTorques a m JointId.j6 = 0.1 ∧
    jointTorques a m JointId.j7x = 0.1 ∧ jointTorques a m JointId.j7z = 0.1 ∧
    jointTorques a m JointId.j9 = 0.1 :=
  ⟨rfl, rfl, rfl, rfl, rfl, rfl, rfl⟩

/-! ## The all-zero configuration -/

lemma TafterJ1_zero : TafterJ1 zeroAngles = identityM := by
  rw [TafterJ1, show zeroAngles.j1 = 0 from rfl, toRad_zero, rotateZ_zero,
    multiplyMatrices_identity_left]

lemma TafterJ2_zero : TafterJ2 zeroAngles = identityM := by
  rw [TafterJ2, TafterJ1_zero, show zeroAngles.j2 = 0 from rfl, toRad_zero,
    rotateY_zero, multiplyMatrices_identity_left]

lemma TafterJ3_zero : TafterJ3 zeroAngles = identityM := by
  rw [TafterJ3, TafterJ2_zero, show zeroAngles.j3 = 0 from rfl, toRad_zero,
    rotateX_zero, multiplyMatrices_identity_left]

lemma TafterUpper_zero : TafterUpper zeroAngles = translate 0.45 0 0 := by
  rw [TafterUpper, TafterJ3_zero, multiplyMatrices_identity_left,
    show LINKS_UPPER.length = 0.45 from rfl]

lemma TafterJ4_zero : TafterJ4 zeroAngles = translate 0.45 0 0 := by
  rw [TafterJ4, TafterUpper_zero, show zeroAngles.j4 = 0 from rfl, toRad_zero,
    rotateZ_zero, multiplyMatrices_identity_right]

lemma TafterJ5_zero : TafterJ5 zeroAngles = translate 0.45 0 0 := by
  rw [TafterJ5, TafterJ4_zero, show zeroAngles.j5 = 0 from rfl, toRad_zero,
    rotateY_zero, multiplyMatrices_identity_right]

lemma TafterJ6_zero : TafterJ6 zeroAngles = translate 0.45 0 0 := by
  rw [TafterJ6, TafterJ5_zero, show zeroAngles.j6 = 0 from rfl, toRad_zero,
    rotateX_zero, multiplyMatrices_identity_right]

lemma TafterFore_zero : TafterFore zeroAngles = translate 0.75 0 0 := by
  rw [TafterFore, TafterJ6_zero]
  norm_num [multiplyMatrices, translate, LINKS_FOREARM]

lemma TafterJ7X_zero : TafterJ7X zeroAngles = translate 0.75 0 0 := by
  rw [TafterJ7X, TafterFore_zero, show zeroAngles.j7x = 0 from rfl, toRad_zero,
    rotateX_zero, multiplyMatrices_identity_right]

lemma TafterJ7Y_zero : TafterJ7Y zeroAngles = translate 0.75 0 0 := by
  rw [TafterJ7Y, TafterJ7X_zero, show zeroAngles.j7y = 0 from rfl, toRad_zero,
    rotateY_zero, multiplyMatrices_identity_right]

lemma TafterJ7Z_zero : TafterJ7Z zeroAngles = translate 0.75 0 0 := by
  rw [TafterJ7Z, TafterJ7Y_zero, show zeroAngles.j7z = 0 from rfl, toRad_zero,
    rotateZ_zero, multiplyMatrices_identity_right]

lemma TendEffector_zero : TendEffector zeroAngles = translate 0.9 0 0 := by
  rw [TendEffector, TafterJ7Z_zero]
  norm_num [multiplyMatrices, translate, LINKS_HAND]

lemma frameJ2_zero_pos : (frameJ2 zeroAngles).pos = ⟨0, 0, 0⟩ := by
  simp [frameJ2, TafterJ2_zero, extractFrame, identityM]

lemma frameJ3_zero_pos : (frameJ3 zeroAngles).pos = ⟨0, 0, 0⟩ := by
  simp [frameJ3, TafterJ3_zero, extractFrame, identityM]

lemma frameJ4_zero_pos : (frameJ4 zeroAngles).pos = ⟨0.45, 0, 0⟩ := by
  simp [frameJ4, TafterJ4_zero, extractFrame, translate]

lemma frameJ6_zero_pos : (frameJ6 zeroAngles).pos = ⟨0.45, 0, 0⟩ := by
  simp [frameJ6, TafterJ6_zero, extractFrame, translate]

lemma frameJ7X_zero_pos : (frameJ7X zeroAngles).pos = ⟨0.75, 0, 0⟩ := by
  simp [frameJ7X, TafterJ7X_zero, extractFrame, translate]

lemma frameJ7Z_zero_pos : (frameJ7Z zeroAngles).pos = ⟨0.75, 0, 0⟩ := by
  simp [frameJ7Z, TafterJ7Z_zero, extractFrame, translate]

lemma ee_zero_pos : (endEffectorFrame zeroAngles).pos = ⟨0.9, 0, 0⟩ := by
  simp [endEffectorFrame, TendEffector_zero, extractFrame, translate]

lemma cogUpper_zero : cogUpper zeroAngles = ⟨0.225, 0, 0⟩ := by
  rw [cogUpper, frameJ3_zero_pos, frameJ4_zero_pos]
  norm_num [lerpVector, LINKS_UPPER]

lemma cogFore_zero : cogFore zeroAngles = ⟨0.6, 0, 0⟩ := by
  rw [cogFore, frameJ6_zero_pos, frameJ7X_zero_pos]
  norm_num [lerpVector, LINKS_FOREARM]

lemma cogHand_zero : cogHand zeroAngles = ⟨0.825, 0, 0⟩ := by
  rw [cogHand, frameJ7Z_zero_pos, ee_zero_pos]
  norm_num [lerpVector, LINKS_HAND]

/-! ## Claim C4 -/

/-- C4: with all nine joint angles at zero, the end-effector position is
exactly (0.9, 0, 0) in base coordinates, and 0.9 is the sum of the three
link lengths. -/
theorem C4_zero_pose_end_effector :
    (endEffectorFrame zeroAngles).pos = ⟨0.9, 0, 0⟩ ∧
    LINKS_UPPER.length + LINKS_FOREARM.length + LINKS_HAND.length = 0.9 :=
  ⟨ee_zero_pos, by norm_num [LINKS_UPPER, LINKS_FOREARM, LINKS_HAND]⟩

/-! ## Claim C2 -/

/-- C2 counterexample: at the all-zero configuration, doubling the payload
mass from 1 kg to 2 kg does not double the net moment magnitude at the
shoulder pivot (the link self-weight contribution is unaffected by the
payload). -/
theorem C2_counterexample :
    ¬ torqueJ2 zeroAngles 2 = 2 * torqueJ2 zeroAngles 1 := by
  have h1 : momentSum (frameJ2 zeroAngles).pos (loadSet zeroAngles 1) =
      ⟨0, 29.062125, 0⟩ := by
    rw [loadSet, cogUpper_zero, cogFore_zero, cogHand_zero, ee_zero_pos,
      frameJ2_zero_pos]
    norm_num [momentSum, crossProduct, GRAVITY, LINKS_UPPER, LINKS_FOREARM,
      LINKS_HAND]
  have h2 : momentSum (frameJ2 zeroAngles).pos (loadSet zeroAngles 2) =
      ⟨0, 37.891125, 0⟩ := by
    rw [loadSet, cogUpper_zero, cogFore_zero, cogHand_zero, ee_zero_pos,
      frameJ2_zero_pos]
    norm_num [momentSum, crossProduct, GRAVITY, LINKS_UPPER, LINKS_FOREARM,
      LINKS_HAND]
  rw [torqueJ2, torqueJ2, calculateMoment, calculateMoment, h1, h2,
    magnitude_y, magnitude_y]
  rw [abs_of_pos (by norm_num), abs_of_pos (by norm_num)]
  norm_num

/-- C2 amended: at every one of the three pivots, the net moment vector is
an affine function of the payload mass: it is the moment of the link
self-weights (the payload-0 moment) plus the payload mass times the unit
payload moment `crossProduct (endEffector - pivot) (0, 0, -GRAVITY)`.
Doubling the payload mass therefore doubles the payload's contribution,
but not in general the total reported magnitude. -/
theorem C2_amended (a : JointAngles) (m : ℝ) :
    (momentSum (frameJ2 a).pos (loadSet a m) =
      ⟨(momentSum (frameJ2 a).pos (loadSet a 0)).x +
          m * (crossProduct
            ⟨(endEffectorFrame a).pos.x - (frameJ2 a).pos.x,
             (endEffectorFrame a).pos.y - (frameJ2 a).pos.y,
             (endEffectorFrame a).pos.z - (frameJ2 a).pos.z⟩
            ⟨0, 0, -GRAVITY⟩).x,
       (momentSum (frameJ2 a).pos (loadSet a 0)).y +
          m * (crossProduct
            ⟨(endEffectorFrame a).pos.x - (frameJ2 a).pos.x,
             (endEffectorFrame a).pos.y - (frameJ2 a).pos.y,
             (endEffectorFrame a).pos.z - (frameJ2 a).pos.z⟩
            ⟨0, 0, -GRAVITY⟩).y,
       (momentSum (frameJ2 a).pos (loadSet a 0)).z +
          m * (crossProduct
            ⟨(endEffectorFrame a).pos.x - (frameJ2 a).pos.x,
             (endEffectorFrame a).pos.y - (frameJ2 a).pos.y,
             (endEffectorFrame a).pos.z - (frameJ2 a).pos.z⟩
            ⟨0, 0, -GRAVITY⟩).z⟩) ∧
    (momentSum (frameJ5 a).pos ((loadSet a m).drop 1) =
      ⟨(momentSum (frameJ5 a).pos ((loadSet a 0).drop 1)).x +
          m * (crossProduct
            ⟨(endEffectorFrame a).pos.x - (frameJ5 a).pos.x,
             (endEffectorFrame a).pos.y - (frameJ5 a).pos.y,
             (endEffectorFrame a).pos.z - (frameJ5 a).pos.z⟩
            ⟨0, 0, -GRAVITY⟩).x,
       (momentSum (frameJ5 a).pos ((loadSet a 0).drop 1)).y +
          m * (crossProduct
            ⟨(endEffectorFrame a).pos.x - (frameJ5 a).pos.x,
             (endEffectorFrame a).pos.y - (frameJ5 a).pos.y,
             (endEffectorFrame a).pos.z - (frameJ5 a).pos.z⟩
            ⟨0, 0, -GRAVITY⟩).y,
       (momentSum (frameJ5 a).pos ((loadSet a 0).drop 1)).z +
          m * (crossProduct
            ⟨(endEffectorFrame a).pos.x - (frameJ5 a).pos.x,
             (endEffectorFrame a).pos.y - (frameJ5 a).pos.y,
             (endEffectorFrame a).pos.z - (frameJ5 a).pos.z⟩
            ⟨0, 0, -GRAVITY⟩).z⟩) ∧
    (momentSum (frameJ7Y a).pos ((loadSet a m).drop 2) =
      ⟨(momentSum (frameJ7Y a).pos ((loadSet a 0).drop 2)).x +
          m * (crossProduct
            ⟨(endEffectorFrame a).pos.x - (frameJ7Y a).pos.x,
             (endEffectorFrame a).pos.y - (frameJ7Y a).pos.y,
             (endEffectorFrame a).pos.z - (frameJ7Y a).pos.z⟩
            ⟨0, 0, -GRAVITY⟩).x,
       (momentSum (frameJ7Y a).pos ((loadSet a 0).drop 2)).y +
          m * (crossProduct
            ⟨(endEffectorFrame a).pos.x - (frameJ7Y a).pos.x,
             (endEffectorFrame a).pos.y - (frameJ7Y a).pos.y,
             (endEffectorFrame a).pos.z - (frameJ7Y a).pos.z⟩
            ⟨0, 0, -GRAVITY⟩).y,
       (momentSum (frameJ7Y a).pos ((loadSet a 0).drop 2)).z +
          m * (crossProduct
            ⟨(endEffectorFrame a).pos.x - (frameJ7Y a).pos.x,
             (endEffectorFrame a).pos.y - (frameJ7Y a).pos.y,
             (endEffectorFrame a).pos.z - (frameJ7Y a).pos.z⟩
            ⟨0, 0, -GRAVITY⟩).z⟩) := by
  refine ⟨?_, ?_, ?_⟩ <;>
  · simp only [momentSum, loadSet, List.drop, List.foldl, crossProduct,
      Vector3.mk.injEq]
    refine ⟨by ring, by ring, by ring⟩

/-! ## Claim C1 -/

lemma fillTorque_pos (t : ℝ) (ht : 0 ≤ t) : 0 < fillTorque t := by
  unfold fillTorque
  split_ifs with h
  · norm_num
  · exact lt_of_le_of_ne ht (Ne.symm h)

lemma fillTorque_of_pos (t : ℝ) (ht : 0 < t) : fillTorque t = t :=
  if_neg (ne_of_gt ht)

lemma torqueJ2_nonneg (a : JointAngles) (m : ℝ) : 0 ≤ torqueJ2 a m := by
  rw [torqueJ2, calculateMoment]
  exact magnitude_nonneg _

lemma torqueJ5_nonneg (a : JointAngles) (m : ℝ) : 0 ≤ torqueJ5 a m := by
  rw [torqueJ5, calculateMoment]
  exact magnitude_nonneg _

lemma torqueJ7Y_nonneg (a : JointAngles) (m : ℝ) : 0 ≤ torqueJ7Y a m := by
  rw [torqueJ7Y, calculateMoment]
  exact magnitude_nonneg _

lemma inertia_pos_UPPER : 0 < calculateInertia 0.050 0.0015 := by
  rw [calculateInertia]
  exact div_pos (mul_pos Real.pi_pos (by norm_num)) (by norm_num)

lemma inertia_pos_SMALL : 0 < calculateInertia 0.040 0.0010 := by
  rw [calculateInertia]
  exact div_pos (mul_pos Real.pi_pos (by norm_num)) (by norm_num)

lemma calcStress_pos_UPPER (t : ℝ) (ht : 0 < t) : 0 < calcStress t LINKS_UPPER := by
  rw [calcStress, show LINKS_UPPER.od = 0.050 from rfl,
    show LINKS_UPPER.thickness = 0.0015 from rfl]
  exact div_pos (div_pos (mul_pos ht (by norm_num)) inertia_pos_UPPER) (by norm_num)

lemma calcStress_pos_FOREARM (t : ℝ) (ht : 0 < t) : 0 < calcStress t LINKS_FOREARM := by
  rw [calcStress, show LINKS_FOREARM.od = 0.040 from rfl,
    show LINKS_FOREARM.thickness = 0.0010 from rfl]
  exact div_pos (div_pos (mul_pos ht (by norm_num)) inertia_pos_SMALL) (by norm_num)

lemma calcStress_pos_HAND (t : ℝ) (ht : 0 < t) : 0 < calcStress t LINKS_HAND := by
  rw [calcStress, show LINKS_HAND.od = 0.040 from rfl,
    show LINKS_HAND.thickness = 0.0010 from rfl]
  exact div_pos (div_pos (mul_pos ht (by norm_num)) inertia_pos_SMALL) (by norm_num)

lemma stressS_pos (a : JointAngles) (m : ℝ) : 0 < stressS a m := by
  rw [stressS, show jointTorques a m JointId.j2 = fillTorque (torqueJ2 a m) from rfl]
  exact calcStress_pos_UPPER _ (fillTorque_pos _ (torqueJ2_nonneg a m))

lemma stressE_pos (a : JointAngles) (m : ℝ) : 0 < stressE a m := by
  rw [stressE, show jointTorques a m JointId.j5 = fillTorque (torqueJ5 a m) from rfl]
  exact calcStress_pos_FOREARM _ (fillTorque_pos _ (torqueJ5_nonneg a m))

lemma stressW_pos (a : JointAngles) (m : ℝ) : 0 < stressW a m := by
  rw [stressW, show jointTorques a m JointId.j7y = fillTorque (torqueJ7Y a m) from rfl]
  exact calcStress_pos_HAND _ (fillTorque_pos _ (torqueJ7Y_nonneg a m))

lemma jsDiv_of_pos (a b : ℝ) (hb : 0 < b) : jsDiv a b = JsNum.num (a / b) := by
  rw [jsDiv, if_neg (ne_of_gt hb)]

/-- C1 counterexample: the safety-factor computation as written
(`AL6061_YIELD_STRENGTH / stress`) is not guarded: applied to a stress of
exactly zero, the JS division produces Infinity, not a designated
sentinel. -/
theorem C1_counterexample : jsDiv AL6061_YIELD_STRENGTH 0 = JsNum.posInf := by
  rw [jsDiv, if_pos rfl, if_pos (by norm_num [AL6061_YIELD_STRENGTH])]

/-- C1 amended: the reported stress at each pivot is never exactly zero —
the torque fill loop's falsiness check replaces a zero pivot moment by the
0.1 N·m placeholder before stress conversion — so the (unguarded)
safety-factor division never divides by zero, and every reported safety
factor is the finite real `AL6061_YIELD_STRENGTH / stress`; no NaN or
Infinity enters any StressResult. -/
theorem C1_amended_no_special_values (a : JointAngles) (m : ℝ) :
    0 < stressS a m ∧ 0 < stressE a m ∧ 0 < stressW a m ∧
    (shoulderResult a m).safetyFactor =
      JsNum.num (AL6061_YIELD_STRENGTH / stressS a m) ∧
    (elbowResult a m).safetyFactor =
      JsNum.num (AL6061_YIELD_STRENGTH / stressE a m) ∧
    (wristResult a m).safetyFactor =
      JsNum.num (AL6061_YIELD_STRENGTH / stressW a m) :=
  ⟨stressS_pos a m, stressE_pos a m, stressW_pos a m,
   jsDiv_of_pos _ _ (stressS_pos a m),
   jsDiv_of_pos _ _ (stressE_pos a m),
   jsDiv_of_pos _ _ (stressW_pos a m)⟩

/-! ## Claim C3: the folded configuration -/

lemma toRad72 : toRad 72 = 2 * Real.pi / 5 := by
  rw [toRad]; ring

lemma toRad108 : toRad 108 = Real.pi - 2 * Real.pi / 5 := by
  rw [toRad]; ring

lemma cos_two_pi_div_five :
    Real.cos (2 * Real.pi / 5) = (Real.sqrt 5 - 1) / 4 := by
  have h : (2 : ℝ) * Real.pi / 5 = 2 * (Real.pi / 5) := by ring
  rw [h, Real.cos_two_mul, Real.cos_pi_div_five]
  have h5 : Real.sqrt 5 ^ 2 = 5 := Real.sq_sqrt (by norm_num)
  linear_combination h5 / 8

lemma sqrt5_gt : (2.23 : ℝ) < Real.sqrt 5 := by
  have h : Real.sqrt (2.23 ^ 2) < Real.sqrt 5 :=
    Real.sqrt_lt_sqrt (by norm_num) (by norm_num)
  rwa [Real.sqrt_sq (by norm_num)] at h

lemma sqrt5_lt : Real.sqrt 5 < 2.24 := by
  have h : Real.sqrt 5 < Real.sqrt (2.24 ^ 2) :=
    Real.sqrt_lt_sqrt (by norm_num) (by norm_num)
  rwa [Real.sqrt_sq (by norm_num)] at h

lemma TafterJ1_fold : TafterJ1 foldAngles = identityM := by
  rw [TafterJ1, show foldAngles.j1 = 0 from rfl, toRad_zero, rotateZ_zero,
    multiplyMatrices_identity_left]

lemma TafterJ2_fold : TafterJ2 foldAngles = rotateY (2 * Real.pi / 5) := by
  rw [TafterJ2, TafterJ1_fold, show foldAngles.j2 = 72 from rfl, toRad72,
    multiplyMatrices_identity_left]

lemma TafterJ3_fold : TafterJ3 foldAngles = rotateY (2 * Real.pi / 5) := by
  rw [TafterJ3, TafterJ2_fold, show foldAngles.j3 = 0 from rfl, toRad_zero,
    rotateX_zero, multiplyMatrices_identity_right]

lemma TafterUpper_fold : TafterUpper foldAngles =
    ⟨Real.cos (2 * Real.pi / 5), 0, Real.sin (2 * Real.pi / 5),
       0.45 * Real.cos (2 * Real.pi / 5),
     0, 1, 0, 0,
     -Real.sin (2 * Real.pi / 5), 0, Real.cos (2 * Real.pi / 5),
       -(0.45 * Real.sin (2 * Real.pi / 5)),
     0, 0, 0, 1⟩ := by
  rw [TafterUpper, TafterJ3_fold, show LINKS_UPPER.length = 0.45 from rfl]
  simp only [multiplyMatrices, rotateY, translate, Matrix4x4.mk.injEq]
  exact ⟨by ring, by ring, by ring, by ring, by ring, by ring, by ring, by ring,
    by ring, by ring, by ring, by ring, by ring, by ring, by ring, by ring⟩

lemma TafterJ4_fold : TafterJ4 foldAngles = TafterUpper foldAngles := by
  rw [TafterJ4, show foldAngles.j4 = 0 from rfl, toRad_zero, rotateZ_zero,
    multiplyMatrices_identity_right]

lemma TafterJ5_fold : TafterJ5 foldAngles = TafterUpper foldAngles := by
  rw [TafterJ5, TafterJ4_fold, show foldAngles.j5 = 0 from rfl, toRad_zero,
    rotateY_zero, multiplyMatrices_identity_right]

lemma TafterJ6_fold : TafterJ6 foldAngles = TafterUpper foldAngles := by
  rw [TafterJ6, TafterJ5_fold, show foldAngles.j6 = 0 from rfl, toRad_zero,
    rotateX_zero, multiplyMatrices_identity_right]

lemma TafterFore_fold : TafterFore foldAngles =
    ⟨Real.cos (2 * Real.pi / 5), 0, Real.sin (2 * Real.pi / 5),
       0.75 * Real.cos (2 * Real.pi / 5),
     0, 1, 0, 0,
     -Real.sin (2 * Real.pi / 5), 0, Real.cos (2 * Real.pi / 5),
       -(0.75 * Real.sin (2 * Real.pi / 5)),
     0, 0, 0, 1⟩ := by
  rw [TafterFore, TafterJ6_fold, TafterUpper_fold,
    show LINKS_FOREARM.length = 0.30 from rfl]
  simp only [multiplyMatrices, translate, Matrix4x4.mk.injEq]
  exact ⟨by ring, by ring, by ring, by ring, by ring, by ring, by ring, by ring,
    by ring, by ring, by ring, by ring, by ring, by ring, by ring, by ring⟩

lemma TafterJ7X_fold : TafterJ7X foldAngles = TafterFore foldAngles := by
  rw [TafterJ7X, show foldAngles.j7x = 0 from rfl, toRad_zero, rotateX_zero,
    multiplyMatrices_identity_right]

lemma TafterJ7Y_fold : TafterJ7Y foldAngles =
    ⟨-1, 0, 0, 0.75 * Real.cos (2 * Real.pi / 5),
     0, 1, 0, 0,
     0, 0, -1, -(0.75 * Real.sin (2 * Real.pi / 5)),
     0, 0, 0, 1⟩ := by
  rw [TafterJ7Y, TafterJ7X_fold, TafterFore_fold,
    show foldAngles.j7y = 108 from rfl, toRad108]
  simp only [rotateY, Real.cos_pi_sub, Real.sin_pi_sub]
  simp only [multiplyMatrices, Matrix4x4.mk.injEq]
  refine ⟨?_, by ring, by ring, by ring, by ring, by ring, by ring, by ring,
    by ring, by ring, ?_, by ring, by ring, by ring, by ring, by ring⟩
  · linear_combination -Real.sin_sq_add_cos_sq (2 * Real.pi / 5)
  · linear_combination -Real.sin_sq_add_cos_sq (2 * Real.pi / 5)

lemma TafterJ7Z_fold : TafterJ7Z foldAngles = TafterJ7Y foldAngles := by
  rw [TafterJ7Z, show foldAngles.j7z = 0 from rfl, toRad_zero, rotateZ_zero,
    multiplyMatrices_identity_right]

lemma TendEffector_fold : TendEffector foldAngles =
    ⟨-1, 0, 0, 0.75 * Real.cos (2 * Real.pi / 5) - 0.15,
     0, 1, 0, 0,
     0, 0, -1, -(0.75 * Real.sin (2 * Real.pi / 5)),
     0, 0, 0, 1⟩ := by
  rw [TendEffector, TafterJ7Z_fold, TafterJ7Y_fold,
    show LINKS_HAND.length = 0.15 from rfl]
  simp only [multiplyMatrices, translate, Matrix4x4.mk.injEq]
  exact ⟨by ring, by ring, by ring, by ring, by ring, by ring, by ring, by ring,
    by ring, by ring, by ring, by ring, by ring, by ring, by ring, by ring⟩

lemma fold_J5_pos : (frameJ5 foldAngles).pos =
    ⟨0.45 * Real.cos (2 * Real.pi / 5), 0,
     -(0.45 * Real.sin (2 * Real.pi / 5))⟩ := by
  rw [frameJ5, TafterJ5_fold, TafterUpper_fold]
  rfl

lemma fold_J6_pos : (frameJ6 foldAngles).pos =
    ⟨0.45 * Real.cos (2 * Real.pi / 5), 0,
     -(0.45 * Real.sin (2 * Real.pi / 5))⟩ := by
  rw [frameJ6, TafterJ6_fold, TafterUpper_fold]
  rfl

lemma fold_J7X_pos : (frameJ7X foldAngles).pos =
    ⟨0.75 * Real.cos (2 * Real.pi / 5), 0,
     -(0.75 * Real.sin (2 * Real.pi / 5))⟩ := by
  rw [frameJ7X, TafterJ7X_fold, TafterFore_fold]
  rfl

lemma fold_J7Z_pos : (frameJ7Z foldAngles).pos =
    ⟨0.75 * Real.cos (2 * Real.pi / 5), 0,
     -(0.75 * Real.sin (2 * Real.pi / 5))⟩ := by
  rw [frameJ7Z, TafterJ7Z_fold, TafterJ7Y_fold]
  rfl

lemma fold_EE_pos : (endEffectorFrame foldAngles).pos =
    ⟨0.75 * Real.cos (2 * Real.pi / 5) - 0.15, 0,
     -(0.75 * Real.sin (2 * Real.pi / 5))⟩ := by
  rw [endEffectorFrame, TendEffector_fold]
  rfl

lemma fold_cogFore : cogFore foldAngles =
    ⟨0.6 * Real.cos (2 * Real.pi / 5), 0,
     -(0.6 * Real.sin (2 * Real.pi / 5))⟩ := by
  rw [cogFore, fold_J6_pos, fold_J7X_pos,
    show LINKS_FOREARM.cogRatio = 0.5 from rfl]
  simp only [lerpVector, Vector3.mk.injEq]
  exact ⟨by ring, by ring, by ring⟩

lemma fold_cogHand : cogHand foldAngles =
    ⟨0.75 * Real.cos (2 * Real.pi / 5) - 0.075, 0,
     -(0.75 * Real.sin (2 * Real.pi / 5))⟩ := by
  rw [cogHand, fold_J7Z_pos, fold_EE_pos,
    show LINKS_HAND.cogRatio = 0.5 from rfl]
  simp only [lerpVector, Vector3.mk.injEq]
  exact ⟨by ring, by ring, by ring⟩

lemma fold_momentJ5 (m : ℝ) :
    momentSum (frameJ5 foldAngles).pos ((loadSet foldAngles m).drop 1) =
      ⟨0, 9.81 * (0.525 * Real.cos (2 * Real.pi / 5) - 0.075 +
          m * (0.3 * Real.cos (2 * Real.pi / 5) - 0.15)), 0⟩ := by
  have hdrop : (loadSet foldAngles m).drop 1 =
      [⟨LINKS_FOREARM.mass, cogFore foldAngles⟩,
       ⟨LINKS_HAND.mass, cogHand foldAngles⟩,
       ⟨m, (endEffectorFrame foldAngles).pos⟩] := rfl
  rw [hdrop, fold_cogFore, fold_cogHand, fold_EE_pos, fold_J5_pos,
    show LINKS_FOREARM.mass = 1.5 from rfl, show LINKS_HAND.mass = 1.0 from rfl]
  simp only [momentSum, List.foldl, crossProduct, Vector3.mk.injEq,
    show GRAVITY = 9.81 from rfl]
  exact ⟨by ring, by ring, by ring⟩

lemma fold_torqueJ5_zero :
    torqueJ5 foldAngles 0 =
      9.81 * (0.525 * ((Real.sqrt 5 - 1) / 4) - 0.075) := by
  rw [torqueJ5, calculateMoment, fold_momentJ5, magnitude_y,
    cos_two_pi_div_five, abs_of_pos (by nlinarith [sqrt5_gt])]
  ring

lemma fold_torqueJ5_one :
    torqueJ5 foldAngles 1 =
      9.81 * (0.825 * ((Real.sqrt 5 - 1) / 4) - 0.225) := by
  rw [torqueJ5, calculateMoment, fold_momentJ5, magnitude_y,
    cos_two_pi_div_five, abs_of_pos (by nlinarith [sqrt5_gt])]
  ring

lemma calcStress_lt_FOREARM (t1 t2 : ℝ) (h : t1 < t2) :
    calcStress t1 LINKS_FOREARM < calcStress t2 LINKS_FOREARM := by
  rw [calcStress, calcStress, show LINKS_FOREARM.od = 0.040 from rfl,
    show LINKS_FOREARM.thickness = 0.0010 from rfl]
  have e : ∀ t : ℝ, t * (0.040 / 2) / calculateInertia 0.040 0.0010 / 1e6 =
      t * (0.040 / 2 / calculateInertia 0.040 0.0010 / 1e6) := fun t => by ring
  rw [e, e]
  exact mul_lt_mul_of_pos_right h
    (div_pos (div_pos (by norm_num) inertia_pos_SMALL) (by norm_num))

lemma calcStress_le_HAND (t1 t2 : ℝ) (h : t1 ≤ t2) :
    calcStress t1 LINKS_HAND ≤ calcStress t2 LINKS_HAND := by
  rw [calcStress, calcStress, show LINKS_HAND.od = 0.040 from rfl,
    show LINKS_HAND.thickness = 0.0010 from rfl]
  have e : ∀ t : ℝ, t * (0.040 / 2) / calculateInertia 0.040 0.0010 / 1e6 =
      t * (0.040 / 2 / calculateInertia 0.040 0.0010 / 1e6) := fun t => by ring
  rw [e, e]
  exact mul_le_mul_of_nonneg_right h
    (le_of_lt (div_pos (div_pos (by norm_num) inertia_pos_SMALL) (by norm_num)))

/-- C3 counterexample: in the folded configuration `foldAngles` (shoulder
pitch 72°, wrist pitch 108°), raising the payload mass from 0 kg to 1 kg
makes the reported Elbow safety factor strictly larger: the payload's
moment arm at the elbow pivot opposes the link self-weight moment, so more
payload means less net elbow moment, less stress, and a higher safety
factor. -/
theorem C3_counterexample :
    (elbowResult foldAngles 0).safetyFactor =
      JsNum.num (AL6061_YIELD_STRENGTH / stressE foldAngles 0) ∧
    (elbowResult foldAngles 1).safetyFactor =
      JsNum.num (AL6061_YIELD_STRENGTH / stressE foldAngles 1) ∧
    AL6061_YIELD_STRENGTH / stressE foldAngles 0 <
      AL6061_YIELD_STRENGTH / stressE foldAngles 1 := by
  have ht0 : 0 < torqueJ5 foldAngles 0 := by
    rw [fold_torqueJ5_zero]; nlinarith [sqrt5_gt]
  have ht1 : 0 < torqueJ5 foldAngles 1 := by
    rw [fold_torqueJ5_one]; nlinarith [sqrt5_gt]
  have hlt : torqueJ5 foldAngles 1 < torqueJ5 foldAngles 0 := by
    rw [fold_torqueJ5_zero, fold_torqueJ5_one]; nlinarith [sqrt5_lt]
  have hs0 : stressE foldAngles 0 = calcStress (torqueJ5 foldAngles 0) LINKS_FOREARM := by
    rw [stressE,
      show jointTorques foldAngles 0 JointId.j5 = fillTorque (torqueJ5 foldAngles 0) from rfl,
      fillTorque_of_pos _ ht0]
  have hs1 : stressE foldAngles 1 = calcStress (torqueJ5 foldAngles 1) LINKS_FOREARM := by
    rw [stressE,
      show jointTorques foldAngles 1 JointId.j5 = fillTorque (torqueJ5 foldAngles 1) from rfl,
      fillTorque_of_pos _ ht1]
  have hstressLt : stressE foldAngles 1 < stressE foldAngles 0 := by
    rw [hs0, hs1]
    exact calcStress_lt_FOREARM _ _ hlt
  exact ⟨jsDiv_of_pos _ _ (stressE_pos foldAngles 0),
    jsDiv_of_pos _ _ (stressE_pos foldAngles 1),
    div_lt_div_of_pos_left (by norm_num [AL6061_YIELD_STRENGTH])
      (stressE_pos foldAngles 1) hstressLt⟩

lemma frameJ7Z_pos_eq (a : JointAngles) : (frameJ7Z a).pos = (frameJ7Y a).pos := by
  simp [frameJ7Z, frameJ7Y, TafterJ7Z, extractFrame, mul_rotateZ_m03,
    mul_rotateZ_m13, mul_rotateZ_m23]

lemma momentSum_wrist (a : JointAngles) (m : ℝ) :
    momentSum (frameJ7Y a).pos ((loadSet a m).drop 2) =
      ⟨(0.5 + m) * (crossProduct
          ⟨(endEffectorFrame a).pos.x - (frameJ7Y a).pos.x,
           (endEffectorFrame a).pos.y - (frameJ7Y a).pos.y,
           (endEffectorFrame a).pos.z - (frameJ7Y a).pos.z⟩ ⟨0, 0, -GRAVITY⟩).x,
       (0.5 + m) * (crossProduct
          ⟨(endEffectorFrame a).pos.x - (frameJ7Y a).pos.x,
           (endEffectorFrame a).pos.y - (frameJ7Y a).pos.y,
           (endEffectorFrame a).pos.z - (frameJ7Y a).pos.z⟩ ⟨0, 0, -GRAVITY⟩).y,
       (0.5 + m) * (crossProduct
          ⟨(endEffectorFrame a).pos.x - (frameJ7Y a).pos.x,
           (endEffectorFrame a).pos.y - (frameJ7Y a).pos.y,
           (endEffectorFrame a).pos.z - (frameJ7Y a).pos.z⟩ ⟨0, 0, -GRAVITY⟩).z⟩ := by
  have hdrop : (loadSet a m).drop 2 =
      [⟨LINKS_HAND.mass, cogHand a⟩, ⟨m, (endEffectorFrame a).pos⟩] := rfl
  rw [hdrop, cogHand, frameJ7Z_pos_eq, show LINKS_HAND.cogRatio = 0.5 from rfl,
    show LINKS_HAND.mass = 1.0 from rfl]
  simp only [momentSum, List.foldl, crossProduct, lerpVector, Vector3.mk.injEq]
  exact ⟨by ring, by ring, by ring⟩

lemma torqueJ7Y_linear (a : JointAngles) (m : ℝ) (hm : 0 ≤ m) :
    torqueJ7Y a m = (0.5 + m) * magnitude (crossProduct
        ⟨(endEffectorFrame a).pos.x - (frameJ7Y a).pos.x,
         (endEffectorFrame a).pos.y - (frameJ7Y a).pos.y,
         (endEffectorFrame a).pos.z - (frameJ7Y a).pos.z⟩ ⟨0, 0, -GRAVITY⟩) := by
  rw [torqueJ7Y, calculateMoment, momentSum_wrist, magnitude_scale,
    abs_of_pos (by linarith : (0 : ℝ) < 0.5 + m)]

lemma stressW_mono (a : JointAngles) (m1 m2 : ℝ) (h1 : 0 ≤ m1) (h12 : m1 ≤ m2) :
    stressW a m1 ≤ stressW a m2 := by
  have h2 : 0 ≤ m2 := le_trans h1 h12
  rcases eq_or_lt_of_le (magnitude_nonneg (crossProduct
      ⟨(endEffectorFrame a).pos.x - (frameJ7Y a).pos.x,
       (endEffectorFrame a).pos.y - (frameJ7Y a).pos.y,
       (endEffectorFrame a).pos.z - (frameJ7Y a).pos.z⟩ ⟨0, 0, -GRAVITY⟩))
    with hz | hpos
  · have e1 : torqueJ7Y a m1 = 0 := by
      rw [torqueJ7Y_linear a m1 h1, ← hz, mul_zero]
    have e2 : torqueJ7Y a m2 = 0 := by
      rw [torqueJ7Y_linear a m2 h2, ← hz, mul_zero]
    simp only [stressW,
      show ∀ mm, jointTorques a mm JointId.j7y = fillTorque (torqueJ7Y a mm)
        from fun _ => rfl]
    rw [e1, e2]
  · have t1pos : 0 < torqueJ7Y a m1 := by
      rw [torqueJ7Y_linear a m1 h1]
      exact mul_pos (by linarith) hpos
    have t2pos : 0 < torqueJ7Y a m2 := by
      rw [torqueJ7Y_linear a m2 h2]
      exact mul_pos (by linarith) hpos
    simp only [stressW,
      show ∀ mm, jointTorques a mm JointId.j7y = fillTorque (torqueJ7Y a mm)
        from fun _ => rfl]
    rw [fillTorque_of_pos _ t1pos, fillTorque_of_pos _ t2pos]
    apply calcStress_le_HAND
    rw [torqueJ7Y_linear a m1 h1, torqueJ7Y_linear a m2 h2]
    exact mul_le_mul_of_nonneg_right (by linarith) (le_of_lt hpos)

/-- C3 amended: the Wrist safety factor is monotonically non-increasing in
the payload mass (the hand's center of gravity sits on the pivot-to-payload
segment, so the wrist moment scales by the factor 0.5 + payload and its
stress never decreases as payload grows); the corresponding statement is
false for the Shoulder and Elbow pivots in folded configurations, where
increasing the payload can increase the reported safety factor. -/
theorem C3_amended_wrist_monotone (a : JointAngles) (m1 m2 : ℝ)
    (h1 : 0 ≤ m1) (h12 : m1 ≤ m2) :
    stressW a m1 ≤ stressW a m2 ∧
    AL6061_YIELD_STRENGTH / stressW a m2 ≤ AL6061_YIELD_STRENGTH / stressW a m1 ∧
    (wristResult a m1).safetyFactor =
      JsNum.num (AL6061_YIELD_STRENGTH / stressW a m1) ∧
    (wristResult a m2).safetyFactor =
      JsNum.num (AL6061_YIELD_STRENGTH / stressW a m2) :=
  ⟨stressW_mono a m1 m2 h1 h12,
   div_le_div_of_nonneg_left (by norm_num [AL6061_YIELD_STRENGTH])
     (stressW_pos a m1) (stressW_mono a m1 m2 h1 h12),
   jsDiv_of_pos _ _ (stressW_pos a m1),
   jsDiv_of_pos _ _ (stressW_pos a m2)⟩

/-- C3 amended witness: concrete payloads 0 kg and 5 kg at the all-zero
configuration. -/
theorem C3_amended_witness :
    (0 : ℝ) ≤ 0 ∧ (0 : ℝ) ≤ 5 ∧
    (stressW zeroAngles 0 ≤ stressW zeroAngles 5 ∧
     AL6061_YIELD_STRENGTH / stressW zeroAngles 5 ≤
       AL6061_YIELD_STRENGTH / stressW zeroAngles 0 ∧
     (wristResult zeroAngles 0).safetyFactor =
       JsNum.num (AL6061_YIELD_STRENGTH / stressW zeroAngles 0) ∧
     (wristResult zeroAngles 5).safetyFactor =
       JsNum.num (AL6061_YIELD_STRENGTH / stressW zeroAngles 5)) :=
  ⟨le_refl 0, by norm_num,
   C3_amended_wrist_monotone zeroAngles 0 5 (le_refl 0) (by norm_num)⟩

end Nexus
